import Mathlib

/-!
Shallow embedding of `axlearn/cloud/gcp/job.py`: the SSH remote-command
dispatchers (`TPUQRMJob._execute_remote_cmd`, `CPUJob._execute_remote_cmd`),
the IAP reachability inference (`TPUQRMJob._infer_iap`), the command escaping
(`_prepare_cmd_for_gcloud_ssh`), the subprocess-kwargs defaulting
(`_prepare_subprocess_kwargs`), and the GKE manifest compiler
(`TPUGKEJob._build_container` / `_build_pod` / `_build_job` / `_build_jobset`).

External primitives (the `subprocess_run` shell primitive, the TPU node
lookup, `running_from_vm`, the `BASTION_TIER` environment variable and the
bundler image id) are modelled as explicit parameters, so every function here
is executable and total.
-/

/-- The single-quote character, written by code point to keep literals plain. -/
def sqChar : Char := Char.ofNat 39

/-- The double-quote character. -/
def dqChar : Char := Char.ofNat 34

/-- The backslash character. -/
def bsChar : Char := Char.ofNat 92

/-- The dollar character. -/
def dollarChar : Char := Char.ofNat 36

/-- Python `str.replace(needle, repl)` for a single-character needle:
replaces every occurrence of `needle` by the character list `repl`. -/
def replaceChar (needle : Char) (repl : List Char) : List Char → List Char
  | [] => []
  | c :: rest => (if c = needle then repl else [c]) ++ replaceChar needle repl rest

/-- The character class of `shlex.quote`'s `_find_unsafe` regex (non-word,
non-punctuation characters, with `re.ASCII`): a character is safe iff it is an ASCII
letter, an ASCII digit, an underscore, or one of `@ % + = : , . / -`. -/
def isShlexSafe (c : Char) : Bool :=
  c.isAlpha || c.isDigit || c = Char.ofNat 95 || c = Char.ofNat 64 || c = Char.ofNat 37 ||
  c = Char.ofNat 43 || c = Char.ofNat 61 || c = Char.ofNat 58 || c = Char.ofNat 44 ||
  c = Char.ofNat 46 || c = Char.ofNat 47 || c = Char.ofNat 45

/-- Python `shlex.quote`: the empty string becomes two single quotes; a string
of only safe characters is returned unchanged; otherwise each embedded single
quote is replaced by the five-character sequence quote, double-quote, quote,
double-quote, quote, and the result is wrapped in single quotes. -/
def shlexQuote (s : String) : String :=
  if s.data.isEmpty then String.mk [sqChar, sqChar]
  else if s.data.all isShlexSafe then s
  else String.mk (sqChar :: replaceChar sqChar [sqChar, dqChar, sqChar, dqChar, sqChar] s.data ++ [sqChar])

/-- `_prepare_cmd_for_gcloud_ssh` from `job.py`: `shlex.quote` the command,
then replace every double quote by backslash double-quote, then every dollar character
by backslash dollar, so the result can be interpolated inside the
double-quoted `--command="..."` argument. -/
def prepare_cmd_for_gcloud_ssh (cmd : String) : String :=
  let q := shlexQuote cmd
  let q2 := String.mk (replaceChar dqChar [bsChar, dqChar] q.data)
  String.mk (replaceChar dollarChar [bsChar, dollarChar] q2.data)

/-- A character that would be dangerous unescaped inside the double-quoted
`--command="..."` argument: a double quote or a dollar. -/
def dangerChar (c : Char) : Bool := c = dqChar || c = dollarChar

/-- `noEarlyTermAux p l` holds when every danger character in `l` is
immediately preceded by a backslash, where `p` is the character immediately
preceding `l`. -/
def noEarlyTermAux : Char → List Char → Bool
  | _, [] => true
  | p, c :: rest => (!dangerChar c || p = bsChar) && noEarlyTermAux c rest

/-- Every danger character in `l` is at a position `i > 0` and preceded by a
backslash (the dummy previous character `a` is not a backslash). -/
def noEarlyTerm (l : List Char) : Bool := noEarlyTermAux 'a' l

/-- Python truthiness of an optional string: `None` and the empty string are
falsy, any other string is truthy. -/
def pythonTruthy (s : Option String) : Bool := s.getD "" ≠ ""

/-- The keyword arguments a caller may forward to `subprocess`, as consumed by
`_prepare_subprocess_kwargs`. A `none` field means the key is absent. -/
structure SubprocessKwargs where
  text : Option Bool := none
  check : Option Bool := none
  capture_output : Option Bool := none
  stdout : Option String := none
  stderr : Option String := none

/-- The kwargs after `_prepare_subprocess_kwargs` applied its defaults. -/
structure PreparedKwargs where
  text : Bool
  check : Bool
  capture_output : Bool

/-- `_prepare_subprocess_kwargs` from `job.py`: `setdefault` of `text=True`,
`check=True`, and `capture_output` defaulting to whether neither `stdout` nor
`stderr` was passed. -/
def prepare_subprocess_kwargs (kw : SubprocessKwargs) : PreparedKwargs :=
  { text := kw.text.getD true
    check := kw.check.getD true
    capture_output := kw.capture_output.getD (kw.stdout.isNone && kw.stderr.isNone) }

/-- The result of a completed shell invocation, as in
`subprocess.CompletedProcess`: the command that ran and its exit code. -/
structure CompletedProcess where
  args : String
  returncode : Nat
deriving DecidableEq

/-- The exceptions the dispatchers can raise: the `ValueError` for an
over-long screen session name, the `ValueError` for a missing TPU node, and
`subprocess.CalledProcessError` for a non-zero exit under `check=True`. -/
inductive JobError where
  | screenNameTooLong (name : String)
  | tpuNotFound (name : String)
  | calledProcessError (cmd : String) (returncode : Nat)
deriving DecidableEq

/-- The external `subprocess_run` primitive: the environment `env` assigns an
exit code to every shell command; with `check` set, a non-zero exit raises
`CalledProcessError`, otherwise a `CompletedProcess` is returned. -/
def subprocessRun (env : String → Nat) (check : Bool) (cmd : String) :
    Except JobError CompletedProcess :=
  if check && env cmd != 0 then .error (.calledProcessError cmd (env cmd))
  else .ok ⟨cmd, env cmd⟩

/-- One `accessConfig` entry of a TPU network endpoint; `natIP` is its
optional public NAT address. -/
structure AccessConfig where
  natIP : Option String
deriving DecidableEq

/-- One `networkEndpoints` entry of a TPU node. -/
structure NetworkEndpoint where
  accessConfig : List AccessConfig
deriving DecidableEq

/-- A TPU node as returned by the external live query (`get_tpu_node` or
`get_queued_tpu_node`), restricted to the fields `_infer_iap` reads. -/
structure TpuNode where
  networkEndpoints : List NetworkEndpoint
deriving DecidableEq

/-- The scan of `_infer_iap` over the node's endpoints: some endpoint has an
access config with a truthy `natIP`. -/
def hasPublicIP (n : TpuNode) : Bool :=
  n.networkEndpoints.any fun e => e.accessConfig.any fun a => pythonTruthy a.natIP

/-- Outcome of one `_infer_iap` call: the returned value (or the raised
`ValueError` when the node is absent), the new cached `_use_iap` state, and
whether the live node query was issued during this call. -/
structure InferResult where
  result : Except JobError Bool
  useIap : Option Bool
  probed : Bool

/-- `TPUQRMJob._infer_iap` from `job.py`, with the cached `self._use_iap` as
explicit state and the external live node query's answer as the `node`
parameter (the source picks `get_queued_tpu_node` or `get_tpu_node` by
`num_replicas`; both are the same external probe here). A cached state skips
the probe; an absent node raises; otherwise tunneling is needed exactly when
no endpoint exposes a public IP. -/
def infer_iap (name : String) (useIap : Option Bool) (node : Option TpuNode) : InferResult :=
  match useIap with
  | some b => ⟨.ok b, some b, false⟩
  | none =>
    match node with
    | none => ⟨.error (.tpuNotFound name), none, true⟩
    | some nd =>
      if hasPublicIP nd then ⟨.ok false, some false, true⟩
      else ⟨.ok true, some true, true⟩

/-- Total number of live node queries issued by a sequence of `_infer_iap`
calls on one job instance, threading the cached state; the k-th call sees the
k-th oracle answer. -/
def inferIapProbes (name : String) (useIap : Option Bool) : List (Option TpuNode) → Nat
  | [] => 0
  | n :: rest =>
    let r := infer_iap name useIap n
    (if r.probed then 1 else 0) + inferIapProbes name r.useIap rest

/-- The slice names `TPUQRMJob._execute_remote_cmd` dispatches to: bare
`cfg.name` unless `num_replicas > 1`, in which case `name-0 .. name-(n-1)`. -/
def tpuSlices (name : String) (numReplicas : Nat) : List String :=
  if numReplicas > 1 then (List.range numReplicas).map (fun i => name ++ "-" ++ toString i)
  else [name]

/-- The per-index slice address stated by the spec: the bare job name when
`n = 1`, `name-i` when `n > 1`. -/
def sliceName (name : String) (n i : Nat) : String :=
  if n > 1 then name ++ "-" ++ toString i else name

/-- The `cmd_for_slice` string built inside the dispatch loop of
`TPUQRMJob._execute_remote_cmd`. -/
def mkSliceCmd (project zone worker batchSize flags cmd slice : String) : String :=
  s!"gcloud alpha compute -q tpus tpu-vm ssh {slice} --project={project} --zone={zone} --worker={worker} --batch-size={batchSize} {flags} --command=\"{cmd}\""

/-- Lines 232–238 of `job.py`: prefix the escaped command with
`sudo bash -c`, then, when a (truthy) detached session is requested, wrap it
in `sudo screen -dmS`. -/
def wrapCmd (detachedSession : Option String) (cmd : String) : String :=
  let cmd2 := "sudo bash -c " ++ cmd
  if pythonTruthy detachedSession then
    "sudo screen -dmS " ++ detachedSession.getD "" ++ " " ++ cmd2
  else cmd2

/-- The sequential dispatch loop of `TPUQRMJob._execute_remote_cmd`: run each
slice command in order, recording every command actually issued; under
`check`, the first non-zero exit raises and stops the loop. -/
def runSlices (env : String → Nat) (check : Bool) :
    List String → List String × Except JobError (List CompletedProcess)
  | [] => ([], .ok [])
  | c :: rest =>
    match subprocessRun env check c with
    | .error e => ([c], .error e)
    | .ok p =>
      let pr := runSlices env check rest
      (c :: pr.1, pr.2.map (fun ps => p :: ps))

/-- The observable outcome of one `TPUQRMJob._execute_remote_cmd` call: the
returned per-slice processes (or the raised error), the gcloud ssh commands
issued in order, whether the IAP probe queried the live node, the new cached
`_use_iap` state, and the final `extra_ssh_flags` value used for the loop. -/
structure DispatchResult where
  procs : Except JobError (List CompletedProcess)
  issued : List String
  probed : Bool
  useIap : Option Bool
  flagsUsed : String

/-- Screen-name validation plus the per-slice loop (lines 233–256 of
`job.py`): a truthy session name longer than 80 characters raises before any
slice command is issued; otherwise every slice command is built from the
wrapped command and run in slice order. -/
def dispatchSlices (name project zone : String) (numReplicas : Nat) (env : String → Nat)
    (check : Bool) (cmd1 flags worker batchSize : String) (detachedSession : Option String) :
    List String × Except JobError (List CompletedProcess) :=
  if pythonTruthy detachedSession && decide ((detachedSession.getD "").length > 80) then
    ([], .error (.screenNameTooLong (detachedSession.getD "")))
  else
    runSlices env check ((tpuSlices name numReplicas).map
      (mkSliceCmd project zone worker batchSize flags (wrapCmd detachedSession cmd1)))

/-- The common tail of `TPUQRMJob._execute_remote_cmd` once the
`extra_ssh_flags` value is settled: run `dispatchSlices` and package the
observable outcome. -/
def tpuDispatchWith (name project zone : String) (numReplicas : Nat) (env : String → Nat)
    (check : Bool) (cmd1 flags worker batchSize : String) (detachedSession : Option String)
    (probed : Bool) (useIap : Option Bool) : DispatchResult :=
  let pr := dispatchSlices name project zone numReplicas env check cmd1 flags worker batchSize
    detachedSession
  ⟨pr.2, pr.1, probed, useIap, flags⟩

/-- `TPUQRMJob._execute_remote_cmd` from `job.py`. External inputs are
explicit: `fromVM` is `running_from_vm()`, `node` the live TPU query answer,
`env` the exit code of each shell command, `useIap0` the cached `_use_iap`.
When running from a VM the flags gain `--internal-ip` and the probe is
skipped; otherwise `_infer_iap` decides whether to add
`--tunnel-through-iap`. The command is escaped, wrapped, validated against
the 80-character screen-name limit, and fanned out over the slices. -/
def tpu_execute_remote_cmd (name project zone : String) (numReplicas : Nat)
    (useIap0 : Option Bool) (fromVM : Bool) (node : Option TpuNode) (env : String → Nat)
    (cmd : String) (worker : String) (detachedSession : Option String)
    (batchSize : String) (extraSshFlags : String) (kw : SubprocessKwargs) : DispatchResult :=
  let cmd1 := prepare_cmd_for_gcloud_ssh ("pushd /root && " ++ cmd)
  let check := (prepare_subprocess_kwargs kw).check
  if fromVM then
    tpuDispatchWith name project zone numReplicas env check cmd1
      ("--internal-ip " ++ extraSshFlags) worker batchSize detachedSession false useIap0
  else
    let ir := infer_iap name useIap0 node
    match ir.result with
    | .error e => ⟨.error e, [], ir.probed, ir.useIap, extraSshFlags⟩
    | .ok iap =>
      tpuDispatchWith name project zone numReplicas env check cmd1
        (if iap then "--tunnel-through-iap " ++ extraSshFlags else extraSshFlags)
        worker batchSize detachedSession ir.probed ir.useIap

/-- The observable outcome of one `CPUJob._execute_remote_cmd` call. -/
structure CpuDispatchResult where
  proc : Except JobError CompletedProcess
  issued : List String

/-- `CPUJob._execute_remote_cmd` from `job.py`: escape the command, prefix
with `sudo -i bash -c`, wrap in `screen` when a truthy detached session is
given (no length validation here), build the single `gcloud compute ssh`
invocation and run it. -/
def cpu_execute_remote_cmd (name project zone : String) (env : String → Nat)
    (cmd : String) (detachedSession : Option String) (kw : SubprocessKwargs) :
    CpuDispatchResult :=
  let cmd1 := prepare_cmd_for_gcloud_ssh ("pushd /root && " ++ cmd)
  let cmd2 := "sudo -i bash -c " ++ cmd1
  let cmd3 :=
    if pythonTruthy detachedSession then
      "sudo screen -dmS " ++ detachedSession.getD "" ++ " " ++ cmd2
    else cmd2
  let full := s!"gcloud compute -q ssh {name} --project={project} --zone={zone} --command=\"{cmd3}\""
  ⟨subprocessRun env (prepare_subprocess_kwargs kw).check full, [full]⟩

/-- `GCSFuseMount` from `job.py`, with its source defaults. -/
structure GCSFuseMount where
  gcs_path : String
  mount_path : String := "/output"
  cpu : String := "250m"
  memory : String := "256Mi"
  ephemeral_gb : String := "5Gi"
  read_only : Bool := false
deriving DecidableEq

/-- The external topology facts looked up in
`USER_FACING_NAME_TO_SYSTEM_CHARACTERISTICS`, restricted to the fields the
manifest compiler reads. -/
structure SystemCharacteristics where
  chips_per_vm : Nat
  vms_per_slice : Nat
  gke_accelerator : String
  topology : String
deriving DecidableEq

/-- The flattened `TPUGKEJob.Config`: the base job fields, the GKE fields and
the embedded `AcceleratorConfig` (`instance_type`, `num_replicas`). The k8s
namespace field is renamed because `namespace` is a Lean keyword. -/
structure TPUGKEJobConfig where
  name : String
  command : String
  project : String
  zone : String
  service_account : Option String
  max_tries : Nat
  env_vars : List (String × String)
  k8s_namespace : String
  gcsfuse_mount : Option GCSFuseMount
  instance_type : String
  num_replicas : Nat
  reservation : Option String
deriving DecidableEq

/-- Finds the first `://` separator and returns the characters after it, as
Python `urllib.parse.urlparse` does for a well-formed scheme. -/
def afterSchemeSep : List Char → Option (List Char)
  | [] => none
  | ':' :: '/' :: '/' :: rest => some rest
  | _ :: rest => afterSchemeSep rest

/-- Modelled restriction of Python `urllib.parse.urlparse` to URLs of the
shape `scheme://netloc/path` without query or fragment (the shape
`GCSFuseMount.gcs_path` takes, e.g. `gs://bucket/prefix`): the netloc is
everything after the first `://` up to the first slash, the path is the rest
including its leading slash. Without a `://` the netloc is empty and the
whole string is the path. Returns `(netloc, path)`. -/
def urlparseNetlocPath (s : String) : String × String :=
  match afterSchemeSep s.data with
  | none => ("", s)
  | some rest =>
    (String.mk (rest.takeWhile (fun c => c ≠ '/')),
     String.mk (rest.dropWhile (fun c => c ≠ '/')))

/-- Python `str.lstrip` with a slash argument: drop all leading slashes. -/
def lstripSlash (s : String) : String := String.mk (s.data.dropWhile (fun c => c = '/'))

/-- The `self._gcsfuse_volume` constant of `TPUGKEJob`. -/
def gcsfuseVolumeName : String := "gcs-fuse-csi-ephemeral"

/-- One entry of a container's `volumeMounts` list. -/
structure VolumeMount where
  name : String
  mountPath : String
  readOnly : Bool
deriving DecidableEq

/-- The `csi` block of a pod volume. -/
structure CsiVolumeSource where
  driver : String
  readOnly : Bool
  bucketName : String
  mountOptions : String
deriving DecidableEq

/-- One entry of a pod's `volumes` list. -/
structure PodVolume where
  name : String
  csi : CsiVolumeSource
deriving DecidableEq

/-- The container level of the compiled manifest
(`TPUGKEJob._build_container`). `tpuLimit` is the
`resources.limits["google.com/tpu"]` value. -/
structure ContainerSpec where
  name : String
  image : String
  ports : List Nat
  privileged : Bool
  command : List String
  tpuLimit : Nat
  env : List (String × String)
  volumeMounts : List VolumeMount
deriving DecidableEq

/-- The pod level of the compiled manifest (`TPUGKEJob._build_pod`), its
metadata annotations inlined. Annotation and selector maps are association
lists in insertion order. -/
structure PodSpec where
  annotations : List (String × String)
  terminationGracePeriodSeconds : Nat
  restartPolicy : String
  nodeSelector : List (String × String)
  containers : List ContainerSpec
  serviceAccountName : Option String
  volumes : List PodVolume
deriving DecidableEq

/-- The job level of the compiled manifest (`TPUGKEJob._build_job`). -/
structure JobSpec where
  parallelism : Nat
  completions : Nat
  backoffLimit : Nat
  template : PodSpec
deriving DecidableEq

/-- One `replicatedJobs` entry of the job set. -/
structure ReplicatedJob where
  name : String
  replicas : Nat
  template : JobSpec
deriving DecidableEq

/-- The job-group level of the compiled manifest (`TPUGKEJob._build_jobset`),
with `spec.failurePolicy.maxRestarts` inlined. -/
structure JobSetSpec where
  name : String
  annotations : List (String × String)
  maxRestarts : Int
  replicatedJobs : List ReplicatedJob
deriving DecidableEq

/-- `TPUGKEJob._build_container` from `job.py`. The bundler image id
(`self._bundler.id(cfg.name)`) is the external `image` parameter. -/
def build_container (cfg : TPUGKEJobConfig) (system : SystemCharacteristics)
    (image : String) : ContainerSpec :=
  { name := cfg.name
    image := image
    ports := [8471, 8080, 8431]
    privileged := true
    command := ["bash", "-c", cfg.command]
    tpuLimit := system.chips_per_vm
    env := cfg.env_vars
    volumeMounts :=
      match cfg.gcsfuse_mount with
      | some m => [⟨gcsfuseVolumeName, m.mount_path, m.read_only⟩]
      | none => [] }

/-- The pod annotations added by `_build_pod` when a GCS FUSE mount is
configured. -/
def podAnnotations : Option GCSFuseMount → List (String × String)
  | none => []
  | some m =>
    [("gke-gcsfuse/volumes", "true"),
     ("gke-gcsfuse/cpu-limit", m.cpu),
     ("gke-gcsfuse/memory-limit", m.memory),
     ("gke-gcsfuse/ephemeral-storage-limit", m.ephemeral_gb)]

/-- The pod volumes added by `_build_pod` when a GCS FUSE mount is
configured: the CSI volume whose bucket is the parsed netloc and whose mount
option is `only-dir=` followed by the slash-stripped parsed path. -/
def podVolumes : Option GCSFuseMount → List PodVolume
  | none => []
  | some m =>
    let parsed := urlparseNetlocPath m.gcs_path
    [⟨gcsfuseVolumeName,
      ⟨"gcsfuse.csi.storage.gke.io", m.read_only, parsed.1,
       "only-dir=" ++ lstripSlash parsed.2⟩⟩]

/-- The condition of lines 454–455 of `job.py`: the externally supplied
`BASTION_TIER` environment value equals `"0"` and a (truthy) reservation is
configured. -/
def reservedTier (tier reservation : Option String) : Bool :=
  (tier == some "0") && pythonTruthy reservation

/-- The tier-dependent part of the node selector: the reservation-name key
when `reservedTier`, otherwise the spot key. -/
def podTierSelector (tier reservation : Option String) : List (String × String) :=
  if reservedTier tier reservation then
    [("cloud.google.com/reservation-name", reservation.getD "")]
  else
    [("cloud.google.com/gke-spot", "true")]

/-- `TPUGKEJob._build_pod` from `job.py`. `tier` is the external
`BASTION_TIER` environment variable, `image` the external bundler image. -/
def build_pod (cfg : TPUGKEJobConfig) (system : SystemCharacteristics)
    (tier : Option String) (image : String) : PodSpec :=
  { annotations := podAnnotations cfg.gcsfuse_mount
    terminationGracePeriodSeconds := 60
    restartPolicy := "Never"
    nodeSelector :=
      [("cloud.google.com/gke-tpu-accelerator", system.gke_accelerator),
       ("cloud.google.com/gke-tpu-topology", system.topology),
       ("provisioner-nodepool-id", cfg.name)] ++ podTierSelector tier cfg.reservation
    containers := [build_container cfg system image]
    serviceAccountName := cfg.service_account
    volumes := podVolumes cfg.gcsfuse_mount }

/-- `TPUGKEJob._build_job` from `job.py`. -/
def build_job (cfg : TPUGKEJobConfig) (system : SystemCharacteristics)
    (tier : Option String) (image : String) : JobSpec :=
  { parallelism := system.vms_per_slice
    completions := system.vms_per_slice
    backoffLimit := 0
    template := build_pod cfg system tier image }

/-- `TPUGKEJob._build_jobset` from `job.py`: the exclusive-topology
annotation, `failurePolicy.maxRestarts = max_tries - 1`, and a single
replicated job named `job` with `num_replicas` replicas. -/
def build_jobset (cfg : TPUGKEJobConfig) (system : SystemCharacteristics)
    (tier : Option String) (image : String) : JobSetSpec :=
  { name := cfg.name
    annotations :=
      [("alpha.jobset.sigs.k8s.io/exclusive-topology", "cloud.google.com/gke-nodepool")]
    maxRestarts := (cfg.max_tries : Int) - 1
    replicatedJobs := [⟨"job", cfg.num_replicas, build_job cfg system tier image⟩] }

/-- Key membership in an association-list map (a Python dict in insertion
order). -/
def containsKey (l : List (String × String)) (k : String) : Bool :=
  l.any fun p => p.1 == k

/-- Decidable equality for `Except`, so concrete dispatch outcomes can be
checked by evaluation. -/
instance {ε α : Type} [DecidableEq ε] [DecidableEq α] : DecidableEq (Except ε α) := fun a b =>
  match a, b with
  | .error e, .error f =>
    if h : e = f then isTrue (by rw [h])
    else isFalse (by intro hq; exact h (Except.error.inj hq))
  | .error _, .ok _ => isFalse (by intro hq; exact Except.noConfusion hq)
  | .ok _, .error _ => isFalse (by intro hq; exact Except.noConfusion hq)
  | .ok x, .ok y =>
    if h : x = y then isTrue (by rw [h])
    else isFalse (by intro hq; exact h (Except.ok.inj hq))

/-- Discriminates the screen-name `ValueError` among dispatch outcomes. -/
def isScreenErr : Except JobError (List CompletedProcess) → Bool
  | .error (.screenNameTooLong _) => true
  | _ => false

/-- Concrete topology facts used by witnesses and counterexamples. -/
def exampleSystem : SystemCharacteristics :=
  { chips_per_vm := 4, vms_per_slice := 2, gke_accelerator := "tpu-v4-podslice",
    topology := "2x2x1" }

/-- Concrete GKE job configuration used by witnesses and counterexamples
(the spec's end-to-end scenario: `num_replicas = 4`, `max_tries = 3`), with a
configured reservation. -/
def exampleGKEConfig : TPUGKEJobConfig :=
  { name := "j", command := "c", project := "p", zone := "z", service_account := none,
    max_tries := 3, env_vars := [], k8s_namespace := "default", gcsfuse_mount := none,
    instance_type := "tpu-v4-8", num_replicas := 4, reservation := some "r" }


/-- Concrete successful two-slice dispatch (from a VM, all exit codes 0) used
by the C2 witness. -/
def exampleDispatch : DispatchResult :=
  tpu_execute_remote_cmd "j" "p" "z" 2 none true none (fun _ => 0) "c" "all" none "100" "" {}

/-- The per-slice results of `exampleDispatch`. -/
def exampleDispatchProcs : List CompletedProcess :=
  exampleDispatch.issued.map (fun c => ⟨c, 0⟩)

/-- Subprocess kwargs with the caller overriding `check` to `False`. -/
def exampleCheckFalseKwargs : SubprocessKwargs := { check := some false }

/-- Concrete two-slice dispatch where every remote command exits 1, run with
`check=False`; used by the C1 witness. -/
def exampleFailingDispatch : DispatchResult :=
  tpu_execute_remote_cmd "j" "p" "z" 2 none true none (fun _ => 1) "c" "all" none "100" ""
    exampleCheckFalseKwargs

/-- A detached-session name of length exactly 80. -/
def exampleScreen80 : String := String.mk (List.replicate 80 'a')

/-- Concrete single-slice dispatch with an 80-character session name; used by
the C3 witness. -/
def exampleScreenDispatch : DispatchResult :=
  tpu_execute_remote_cmd "j" "p" "z" 1 none true none (fun _ => 0) "c" "all"
    (some exampleScreen80) "100" "" {}

/-- C4: for every `max_tries ≥ 1` and `num_replicas ≥ 1`, the compiled job
group has `failurePolicy.maxRestarts = max_tries - 1`, exactly one replicated
job with `replicas = num_replicas`, and the nested job level has parallelism
and completions equal to the topology's hosts per slice and a backoff limit
of 0. -/
theorem jobset_retry_and_replica_shape (cfg : TPUGKEJobConfig)
    (system : SystemCharacteristics) (tier : Option String) (image : String)
    (hmt : 1 ≤ cfg.max_tries) (hnr : 1 ≤ cfg.num_replicas) :
    (build_jobset cfg system tier image).maxRestarts = (cfg.max_tries : Int) - 1 ∧
    (build_jobset cfg system tier image).replicatedJobs.length = 1 ∧
    (build_jobset cfg system tier image).replicatedJobs.map (fun rj => rj.replicas) =
      [cfg.num_replicas] ∧
    (build_jobset cfg system tier image).replicatedJobs.map
      (fun rj => rj.template.parallelism) = [system.vms_per_slice] ∧
    (build_jobset cfg system tier image).replicatedJobs.map
      (fun rj => rj.template.completions) = [system.vms_per_slice] ∧
    (build_jobset cfg system tier image).replicatedJobs.map
      (fun rj => rj.template.backoffLimit) = [0] :=
  ⟨rfl, rfl, rfl, rfl, rfl, rfl⟩

/-- C4 witness: the spec's end-to-end scenario `num_replicas = 4`,
`max_tries = 3` gives `maxRestarts = 2`, one replicated job of 4 replicas,
parallelism and completions 2, and backoff 0. -/
theorem jobset_retry_and_replica_shape_witness :
    1 ≤ exampleGKEConfig.max_tries ∧ 1 ≤ exampleGKEConfig.num_replicas ∧
    ((build_jobset exampleGKEConfig exampleSystem none "img").maxRestarts =
      (exampleGKEConfig.max_tries : Int) - 1 ∧
    (build_jobset exampleGKEConfig exampleSystem none "img").replicatedJobs.length = 1 ∧
    (build_jobset exampleGKEConfig exampleSystem none "img").replicatedJobs.map
      (fun rj => rj.replicas) = [exampleGKEConfig.num_replicas] ∧
    (build_jobset exampleGKEConfig exampleSystem none "img").replicatedJobs.map
      (fun rj => rj.template.parallelism) = [exampleSystem.vms_per_slice] ∧
    (build_jobset exampleGKEConfig exampleSystem none "img").replicatedJobs.map
      (fun rj => rj.template.completions) = [exampleSystem.vms_per_slice] ∧
    (build_jobset exampleGKEConfig exampleSystem none "img").replicatedJobs.map
      (fun rj => rj.template.backoffLimit) = [0]) :=
  ⟨by decide, by decide,
   jobset_retry_and_replica_shape exampleGKEConfig exampleSystem none "img"
     (by decide) (by decide)⟩

/-- C5: the compiled pod's node selector contains the reservation-name key
exactly when the external tier marker is `"0"` and a (truthy) reservation is
configured, contains the spot key exactly otherwise, and never contains
both. -/
theorem pod_selector_reserved_or_spot (cfg : TPUGKEJobConfig)
    (system : SystemCharacteristics) (tier : Option String) (image : String) :
    (containsKey (build_pod cfg system tier image).nodeSelector
        "cloud.google.com/reservation-name" = reservedTier tier cfg.reservation) ∧
    (containsKey (build_pod cfg system tier image).nodeSelector
        "cloud.google.com/gke-spot" = !reservedTier tier cfg.reservation) ∧
    ((containsKey (build_pod cfg system tier image).nodeSelector
        "cloud.google.com/reservation-name" &&
      containsKey (build_pod cfg system tier image).nodeSelector
        "cloud.google.com/gke-spot") = false) := by
  cases h : reservedTier tier cfg.reservation <;>
    simp [build_pod, podTierSelector, containsKey, h]

/-- C6: a GCS FUSE mount configured with path `gs://bucket-a/prefix/sub`
compiles to exactly one CSI volume with bucket `bucket-a` and mount option
`only-dir=prefix/sub`; with no mount configured, the pod has no volumes and
no FUSE annotations. -/
theorem gcsfuse_volume_bucket_onlydir (cfg : TPUGKEJobConfig)
    (system : SystemCharacteristics) (tier : Option String) (image : String)
    (m : GCSFuseMount) (hm : cfg.gcsfuse_mount = some m)
    (hp : m.gcs_path = "gs://bucket-a/prefix/sub") :
    (build_pod cfg system tier image).volumes =
      [⟨gcsfuseVolumeName,
        ⟨"gcsfuse.csi.storage.gke.io", m.read_only, "bucket-a", "only-dir=prefix/sub"⟩⟩] ∧
    ∀ (cfg2 : TPUGKEJobConfig), cfg2.gcsfuse_mount = none →
      (build_pod cfg2 system tier image).volumes = [] ∧
      (build_pod cfg2 system tier image).annotations = [] := by
  constructor
  · have hurl : urlparseNetlocPath "gs://bucket-a/prefix/sub" = ("bucket-a", "/prefix/sub") := by
      rfl
    have hstrip : lstripSlash "/prefix/sub" = "prefix/sub" := by rfl
    simp [build_pod, podVolumes, hm, hp, hurl, hstrip]
  · intro cfg2 h2
    constructor
    · simp [build_pod, podVolumes, h2]
    · simp [build_pod, podAnnotations, h2]

/-- C6 witness: a concrete mount of `gs://bucket-a/prefix/sub` yields the
`bucket-a` / `only-dir=prefix/sub` CSI volume. -/
theorem gcsfuse_volume_bucket_onlydir_witness :
    ({ exampleGKEConfig with
        gcsfuse_mount := some { gcs_path := "gs://bucket-a/prefix/sub" } } :
          TPUGKEJobConfig).gcsfuse_mount =
      some { gcs_path := "gs://bucket-a/prefix/sub" } ∧
    (build_pod
        { exampleGKEConfig with
          gcsfuse_mount := some { gcs_path := "gs://bucket-a/prefix/sub" } }
        exampleSystem none "img").volumes =
      [⟨gcsfuseVolumeName,
        ⟨"gcsfuse.csi.storage.gke.io",
         (({ gcs_path := "gs://bucket-a/prefix/sub" } : GCSFuseMount)).read_only,
         "bucket-a", "only-dir=prefix/sub"⟩⟩] ∧
    ∀ (cfg2 : TPUGKEJobConfig), cfg2.gcsfuse_mount = none →
      (build_pod cfg2 exampleSystem none "img").volumes = [] ∧
      (build_pod cfg2 exampleSystem none "img").annotations = [] :=
  ⟨rfl,
   gcsfuse_volume_bucket_onlydir
     { exampleGKEConfig with
       gcsfuse_mount := some { gcs_path := "gs://bucket-a/prefix/sub" } }
     exampleSystem none "img" { gcs_path := "gs://bucket-a/prefix/sub" } rfl rfl⟩

/-- C7 counterexample: two compilations with identical `(JobConfig,
AcceleratorConfig, TopologyFacts)` inputs and identical bundler image differ
when the external `BASTION_TIER` environment variable differs, so the
compiler is not a function of those three inputs alone. -/
theorem build_jobset_depends_on_bastion_tier :
    build_jobset exampleGKEConfig exampleSystem (some "0") "img" ≠
    build_jobset exampleGKEConfig exampleSystem none "img" := by decide

/-- C7 (amended): the manifest compiler is pure and deterministic in the
extended input tuple `(JobConfig+AcceleratorConfig, TopologyFacts,
BASTION_TIER, bundler image)`: identical such inputs give identical
manifest trees. -/
theorem build_jobset_deterministic (c c' : TPUGKEJobConfig)
    (s s' : SystemCharacteristics) (t t' : Option String) (i i' : String)
    (hc : c = c') (hs : s = s') (ht : t = t') (hi : i = i') :
    build_jobset c s t i = build_jobset c' s' t' i' := by
  subst hc hs ht hi; rfl

/-- C7 (amended) witness: determinism applied at one concrete input. -/
theorem build_jobset_deterministic_witness :
    build_jobset exampleGKEConfig exampleSystem (some "0") "img" =
    build_jobset exampleGKEConfig exampleSystem (some "0") "img" :=
  build_jobset_deterministic exampleGKEConfig exampleGKEConfig exampleSystem exampleSystem
    (some "0") (some "0") "img" "img" rfl rfl rfl rfl

/-- An error from `subprocess_run` is always a `CalledProcessError` for the
command it ran. -/
theorem subprocessRun_error_eq (env : String → Nat) (check : Bool) (c : String)
    (e : JobError) (hr : subprocessRun env check c = .error e) :
    e = .calledProcessError c (env c) := by
  unfold subprocessRun at hr
  split at hr
  · exact (Except.error.inj hr).symm
  · exact absurd hr (by simp)

/-- A successful `subprocess_run` returns the command with its exit code. -/
theorem subprocessRun_ok_eq (env : String → Nat) (check : Bool) (c : String)
    (p : CompletedProcess) (hr : subprocessRun env check c = .ok p) :
    p = ⟨c, env c⟩ := by
  unfold subprocessRun at hr
  split at hr
  · exact absurd hr (by simp)
  · exact (Except.ok.inj hr).symm

/-- When the dispatch loop returns a result list, it issued exactly the given
commands, in order, and the results are their completed processes in the same
order. -/
theorem runSlices_ok (env : String → Nat) (check : Bool) (cmds : List String)
    (procs : List CompletedProcess) (h : (runSlices env check cmds).2 = .ok procs) :
    (runSlices env check cmds).1 = cmds ∧ procs = cmds.map (fun c => ⟨c, env c⟩) := by
  induction cmds generalizing procs with
  | nil =>
    refine ⟨rfl, ?_⟩
    have : Except.ok (ε := JobError) ([] : List CompletedProcess) = .ok procs := h
    simpa using (Except.ok.inj this).symm
  | cons c rest ih =>
    cases hr : subprocessRun env check c with
    | error e => simp [runSlices, hr] at h
    | ok p =>
      cases h2 : (runSlices env check rest).2 with
      | error e => simp [runSlices, hr, h2, Except.map] at h
      | ok ps =>
        have hps := ih ps h2
        have hp := subprocessRun_ok_eq env check c p hr
        simp [runSlices, hr, h2, Except.map] at h
        simp [runSlices, hr, hps.1, ← h, hps.2, hp]

/-- With `check=False`, the dispatch loop never raises: it runs every command
and collects every completed process, non-zero exit codes included. -/
theorem runSlices_check_false (env : String → Nat) (cmds : List String) :
    runSlices env false cmds = (cmds, .ok (cmds.map (fun c => ⟨c, env c⟩))) := by
  induction cmds with
  | nil => rfl
  | cons c rest ih => simp [runSlices, subprocessRun, ih, Except.map]

/-- The dispatch loop never raises the screen-name error. -/
theorem runSlices_not_screen_err (env : String → Nat) (check : Bool) (cmds : List String) :
    isScreenErr (runSlices env check cmds).2 = false := by
  induction cmds with
  | nil => rfl
  | cons c rest ih =>
    cases hr : subprocessRun env check c with
    | error e =>
      have he := subprocessRun_error_eq env check c e hr
      simp [runSlices, hr, he, isScreenErr]
    | ok p =>
      cases h2 : (runSlices env check rest).2 with
      | error e =>
        rw [h2] at ih
        simp [runSlices, hr, h2, Except.map]
        simpa [isScreenErr] using ih
      | ok ps => simp [runSlices, hr, h2, Except.map, isScreenErr]

/-- For `n ≥ 1` the slice list is exactly the indexed slice names, in index
order. -/
theorem tpuSlices_eq_range_map (name : String) (n : Nat) (h : 1 ≤ n) :
    tpuSlices name n = (List.range n).map (sliceName name n) := by
  unfold tpuSlices sliceName
  by_cases h1 : n > 1
  · simp [h1]
  · have hn1 : n = 1 := by omega
    subst hn1
    simp

/-- For `n ≥ 1` there are exactly `n` slices. -/
theorem tpuSlices_length (name : String) (n : Nat) (h : 1 ≤ n) :
    (tpuSlices name n).length = n := by
  rw [tpuSlices_eq_range_map name n h]
  simp

/-- When the screen-check-plus-loop stage returns a result list, the issued
commands are exactly the per-slice commands in slice order and the results
are their completed processes. -/
theorem dispatchSlices_ok (name project zone : String) (n : Nat) (env : String → Nat)
    (check : Bool) (cmd1 flags worker batchSize : String) (ds : Option String)
    (procs : List CompletedProcess)
    (h : (dispatchSlices name project zone n env check cmd1 flags worker batchSize ds).2 =
      .ok procs) :
    (dispatchSlices name project zone n env check cmd1 flags worker batchSize ds).1 =
      (tpuSlices name n).map (mkSliceCmd project zone worker batchSize flags (wrapCmd ds cmd1)) ∧
    procs = ((tpuSlices name n).map
        (mkSliceCmd project zone worker batchSize flags (wrapCmd ds cmd1))).map
      (fun c => ⟨c, env c⟩) := by
  by_cases hg : (pythonTruthy ds && decide ((ds.getD "").length > 80)) = true
  · simp [dispatchSlices, hg] at h
  · have hg2 : (pythonTruthy ds && decide ((ds.getD "").length > 80)) = false := by
      simpa using hg
    rw [dispatchSlices] at h ⊢
    rw [hg2] at h ⊢
    simp only [Bool.false_eq_true, if_false]
    exact runSlices_ok env check _ procs h

/-- The packaged dispatch tail, when it returns a result list, issued exactly
the indexed per-slice commands in order and returned their processes in the
same order. -/
theorem tpuDispatchWith_ok (name project zone : String) (n : Nat) (env : String → Nat)
    (check : Bool) (cmd1 flags worker batchSize : String) (ds : Option String)
    (probed : Bool) (useIap : Option Bool) (procs : List CompletedProcess)
    (h : (tpuDispatchWith name project zone n env check cmd1 flags worker batchSize ds probed
      useIap).procs = .ok procs)
    (hn : 1 ≤ n) :
    (tpuDispatchWith name project zone n env check cmd1 flags worker batchSize ds probed
      useIap).issued = (List.range n).map (fun i =>
        mkSliceCmd project zone worker batchSize flags (wrapCmd ds cmd1) (sliceName name n i)) ∧
    (tpuDispatchWith name project zone n env check cmd1 flags worker batchSize ds probed
      useIap).issued.length = n ∧
    procs.length = n ∧
    procs.map (fun p => p.args) =
      (tpuDispatchWith name project zone n env check cmd1 flags worker batchSize ds probed
        useIap).issued := by
  simp only [tpuDispatchWith] at h ⊢
  have hd := dispatchSlices_ok name project zone n env check cmd1 flags worker batchSize ds
    procs h
  rw [tpuSlices_eq_range_map name n hn] at hd
  refine ⟨?_, ?_, ?_, ?_⟩
  · rw [hd.1, List.map_map]; rfl
  · rw [hd.1]; simp
  · rw [hd.2]; simp
  · rw [hd.1, hd.2]; simp

/-- C2: whenever a dispatch with `num_replicas = n ≥ 1` returns its result
list, it issued exactly `n` remote invocations — one per slice, addressed by
the bare job name for `n = 1` and by `name-0 .. name-(n-1)` for `n > 1`, in
slice-index order — and returned exactly `n` results in that same order. -/
theorem dispatch_fanout_per_slice (name project zone : String) (n : Nat)
    (useIap0 : Option Bool) (fromVM : Bool) (node : Option TpuNode) (env : String → Nat)
    (cmd worker : String) (ds : Option String) (batchSize extra : String)
    (kw : SubprocessKwargs) (r : DispatchResult) (procs : List CompletedProcess)
    (hr : r = tpu_execute_remote_cmd name project zone n useIap0 fromVM node env cmd worker ds
      batchSize extra kw)
    (hn : 1 ≤ n) (hok : r.procs = .ok procs) :
    r.issued = (List.range n).map (fun i =>
      mkSliceCmd project zone worker batchSize r.flagsUsed
        (wrapCmd ds (prepare_cmd_for_gcloud_ssh ("pushd /root && " ++ cmd)))
        (sliceName name n i)) ∧
    r.issued.length = n ∧ procs.length = n ∧
    procs.map (fun p => p.args) = r.issued := by
  subst hr
  unfold tpu_execute_remote_cmd at hok ⊢
  cases fromVM with
  | true =>
    simp only [if_true] at hok ⊢
    exact tpuDispatchWith_ok name project zone n env (prepare_subprocess_kwargs kw).check
      (prepare_cmd_for_gcloud_ssh ("pushd /root && " ++ cmd))
      ("--internal-ip " ++ extra) worker batchSize ds false useIap0 procs hok hn
  | false =>
    simp only [Bool.false_eq_true, if_false] at hok ⊢
    cases useIap0 with
    | some b =>
      simp only [infer_iap] at hok ⊢
      exact tpuDispatchWith_ok name project zone n env (prepare_subprocess_kwargs kw).check
        (prepare_cmd_for_gcloud_ssh ("pushd /root && " ++ cmd))
        (if b then "--tunnel-through-iap " ++ extra else extra) worker batchSize ds false
        (some b) procs hok hn
    | none =>
      cases node with
      | none => simp [infer_iap] at hok
      | some nd =>
        cases hip : hasPublicIP nd with
        | true =>
          simp only [infer_iap, hip] at hok ⊢
          exact tpuDispatchWith_ok name project zone n env (prepare_subprocess_kwargs kw).check
            (prepare_cmd_for_gcloud_ssh ("pushd /root && " ++ cmd))
            extra worker batchSize ds true (some false) procs hok hn
        | false =>
          simp only [infer_iap, hip] at hok ⊢
          exact tpuDispatchWith_ok name project zone n env (prepare_subprocess_kwargs kw).check
            (prepare_cmd_for_gcloud_ssh ("pushd /root && " ++ cmd))
            ("--tunnel-through-iap " ++ extra) worker batchSize ds true (some true) procs hok hn

set_option maxRecDepth 100000 in
/-- C2 witness: the fan-out shape at a concrete successful two-slice
dispatch. -/
theorem dispatch_fanout_per_slice_witness :
    exampleDispatch = tpu_execute_remote_cmd "j" "p" "z" 2 none true none (fun _ => 0) "c"
      "all" none "100" "" {} ∧
    1 ≤ 2 ∧
    exampleDispatch.procs = .ok exampleDispatchProcs ∧
    (exampleDispatch.issued = (List.range 2).map (fun i =>
      mkSliceCmd "p" "z" "all" "100" exampleDispatch.flagsUsed
        (wrapCmd none (prepare_cmd_for_gcloud_ssh ("pushd /root && " ++ "c")))
        (sliceName "j" 2 i)) ∧
    exampleDispatch.issued.length = 2 ∧ exampleDispatchProcs.length = 2 ∧
    exampleDispatchProcs.map (fun p => p.args) = exampleDispatch.issued) :=
  ⟨rfl, by decide, by decide,
   dispatch_fanout_per_slice "j" "p" "z" 2 none true none (fun _ => 0) "c" "all" none "100" ""
     {} exampleDispatch exampleDispatchProcs rfl (by decide) (by decide)⟩

set_option maxRecDepth 100000 in
/-- C1 counterexample: a two-slice dispatch under the default subprocess
kwargs (`check=True`) in which the first slice's remote command exits 1:
the dispatcher raises instead of returning results, and only one of the two
slice commands is ever issued — the fan-out is aborted, contradicting the
claim that the failing result is collected and returned alongside the other
slices. -/
theorem multislice_nonzero_exit_aborts_fanout :
    (tpu_execute_remote_cmd "j" "p" "z" 2 none true none (fun _ => 1) "c" "all" none "100" ""
      {}).procs.isOk = false ∧
    (tpu_execute_remote_cmd "j" "p" "z" 2 none true none (fun _ => 1) "c" "all" none "100" ""
      {}).issued.length = 1 := by decide

/-- C1 (amended): only when the caller overrides the subprocess kwargs with
`check=False` is a non-zero exit collected as a completed process and
returned alongside the other slices' results, with every one of the `n`
slice commands issued; under the default `check=True` the first non-zero
exit raises and aborts the fan-out. -/
theorem nonzero_exit_collected_when_check_false (name project zone : String) (n : Nat)
    (useIap0 : Option Bool) (node : Option TpuNode) (env : String → Nat)
    (cmd worker : String) (ds : Option String) (batchSize extra : String)
    (kw : SubprocessKwargs) (r : DispatchResult)
    (hr : r = tpu_execute_remote_cmd name project zone n useIap0 true node env cmd worker ds
      batchSize extra kw)
    (hck : kw.check = some false)
    (hds : (pythonTruthy ds && decide ((ds.getD "").length > 80)) = false)
    (hn : 1 ≤ n) :
    r.procs = .ok (r.issued.map (fun c => ⟨c, env c⟩)) ∧ r.issued.length = n := by
  subst hr
  unfold tpu_execute_remote_cmd
  have hcheck : (prepare_subprocess_kwargs kw).check = false := by
    simp [prepare_subprocess_kwargs, hck]
  simp only [if_true, tpuDispatchWith, dispatchSlices, hds, hcheck]
  rw [runSlices_check_false]
  refine ⟨rfl, ?_⟩
  simp [tpuSlices_length name n hn]

set_option maxRecDepth 100000 in
/-- C1 (amended) witness: a concrete two-slice dispatch with `check=False`
where both remote commands exit 1; both results are returned. -/
theorem nonzero_exit_collected_when_check_false_witness :
    exampleFailingDispatch = tpu_execute_remote_cmd "j" "p" "z" 2 none true none (fun _ => 1)
      "c" "all" none "100" "" exampleCheckFalseKwargs ∧
    exampleCheckFalseKwargs.check = some false ∧
    (pythonTruthy none && decide ((Option.getD none "").length > 80)) = false ∧
    1 ≤ 2 ∧
    (exampleFailingDispatch.procs =
      .ok (exampleFailingDispatch.issued.map (fun c => ⟨c, (fun _ => 1) c⟩)) ∧
    exampleFailingDispatch.issued.length = 2) :=
  ⟨rfl, rfl, by decide, by decide,
   nonzero_exit_collected_when_check_false "j" "p" "z" 2 none none (fun _ => 1) "c" "all"
     none "100" "" exampleCheckFalseKwargs exampleFailingDispatch rfl rfl (by decide)
     (by decide)⟩

/-- C3 (amended): in the TPU multi-slice dispatcher, a truthy detached
session name is rejected with the screen-name error exactly when its length
exceeds 80 — so length 81 is rejected and length 80 accepted — and on
rejection no remote command is issued to any slice. (The CPU-VM variant
performs no such validation; see the counterexample.) -/
theorem tpu_screen_name_limit (name project zone : String) (n : Nat) (useIap0 : Option Bool)
    (node : Option TpuNode) (env : String → Nat) (cmd worker : String) (ds : String)
    (batchSize extra : String) (kw : SubprocessKwargs) (r : DispatchResult)
    (hr : r = tpu_execute_remote_cmd name project zone n useIap0 true node env cmd worker
      (some ds) batchSize extra kw)
    (hds : ds ≠ "") :
    (isScreenErr r.procs = decide (80 < ds.length)) ∧
    (isScreenErr r.procs = true → r.issued = []) := by
  subst hr
  unfold tpu_execute_remote_cmd
  simp only [if_true, tpuDispatchWith, dispatchSlices]
  have htr : pythonTruthy (some ds) = true := by simpa [pythonTruthy] using hds
  rw [htr]
  by_cases hl : 80 < ds.length
  · simp [hl, isScreenErr]
  · simp [hl, runSlices_not_screen_err]

set_option maxRecDepth 100000 in
/-- C3 (amended) witness: a concrete 80-character session name is accepted
(no screen-name error). -/
theorem tpu_screen_name_limit_witness :
    exampleScreenDispatch = tpu_execute_remote_cmd "j" "p" "z" 1 none true none (fun _ => 0)
      "c" "all" (some exampleScreen80) "100" "" {} ∧
    exampleScreen80 ≠ "" ∧
    ((isScreenErr exampleScreenDispatch.procs = decide (80 < exampleScreen80.length)) ∧
     (isScreenErr exampleScreenDispatch.procs = true → exampleScreenDispatch.issued = [])) :=
  ⟨rfl, by decide,
   tpu_screen_name_limit "j" "p" "z" 1 none none (fun _ => 0) "c" "all" exampleScreen80 "100"
     "" {} exampleScreenDispatch rfl (by decide)⟩

set_option maxRecDepth 100000 in
/-- C3 counterexample: the CPU-VM variant does not validate the detached
session name: with a name of length 81 the remote command is still issued
and the dispatch returns normally, contradicting the claim that both
variants reject names of length 81 or more before issuing any command. -/
theorem cpu_dispatch_no_session_length_check :
    (String.mk (List.replicate 81 'a')).length = 81 ∧
    (cpu_execute_remote_cmd "n" "p" "z" (fun _ => 0) "c"
      (some (String.mk (List.replicate 81 'a'))) {}).proc.isOk = true ∧
    (cpu_execute_remote_cmd "n" "p" "z" (fun _ => 0) "c"
      (some (String.mk (List.replicate 81 'a'))) {}).issued.length = 1 := by decide

/-- C8: the reachability probe is issued at most once per job instance even
across repeated calls: a cached `_use_iap` is returned unchanged with no
probe; once the state is resolved an arbitrary sequence of further calls
issues zero probes; and starting unresolved, a call sequence beginning with
an existing node issues exactly one probe in total. -/
theorem infer_iap_probes_memoized (name : String) :
    (∀ (b : Bool) (node : Option TpuNode),
      infer_iap name (some b) node = ⟨.ok b, some b, false⟩) ∧
    (∀ (b : Bool) (ns : List (Option TpuNode)), inferIapProbes name (some b) ns = 0) ∧
    (∀ (nd : TpuNode) (ns : List (Option TpuNode)),
      inferIapProbes name none (some nd :: ns) = 1) := by
  have hres : ∀ (b : Bool) (ns : List (Option TpuNode)),
      inferIapProbes name (some b) ns = 0 := by
    intro b ns
    induction ns with
    | nil => rfl
    | cons m rest ih => simp [inferIapProbes, infer_iap, ih]
  refine ⟨fun b node => rfl, hres, ?_⟩
  intro nd ns
  cases hip : hasPublicIP nd <;> simp [inferIapProbes, infer_iap, hip, hres]

/-- C9: a dispatch running from inside the cloud network (`running_from_vm`
true) never consults the reachability prober (no live query, cached state
unchanged) and uses internal addressing: the flags used prepend exactly
`--internal-ip` to the caller's extra flags, so the dispatcher adds no
tunneling flag. -/
theorem from_vm_uses_internal_ip (name project zone : String) (n : Nat)
    (useIap0 : Option Bool) (node : Option TpuNode) (env : String → Nat)
    (cmd worker : String) (ds : Option String) (batchSize extra : String)
    (kw : SubprocessKwargs) :
    (tpu_execute_remote_cmd name project zone n useIap0 true node env cmd worker ds batchSize
      extra kw).probed = false ∧
    (tpu_execute_remote_cmd name project zone n useIap0 true node env cmd worker ds batchSize
      extra kw).useIap = useIap0 ∧
    (tpu_execute_remote_cmd name project zone n useIap0 true node env cmd worker ds batchSize
      extra kw).flagsUsed = "--internal-ip " ++ extra :=
  ⟨rfl, rfl, rfl⟩

/-- Splitting `str.replace` over concatenation. -/
theorem replaceChar_append (needle : Char) (repl : List Char) (a b : List Char) :
    replaceChar needle repl (a ++ b) =
      replaceChar needle repl a ++ replaceChar needle repl b := by
  induction a with
  | nil => rfl
  | cons c rest ih => simp [replaceChar, ih]

/-- After the double-quote and dollar replacement passes of
`_prepare_cmd_for_gcloud_ssh`, every danger character is immediately
preceded by a backslash, whatever character precedes the string. -/
theorem escaped_noEarlyTermAux (l : List Char) :
    ∀ p : Char, noEarlyTermAux p
      (replaceChar dollarChar [bsChar, dollarChar]
        (replaceChar dqChar [bsChar, dqChar] l)) = true := by
  induction l with
  | nil => intro p; rfl
  | cons c rest ih =>
    intro p
    by_cases h1 : c = dqChar
    · subst h1
      simp +decide [replaceChar, replaceChar_append, noEarlyTermAux, ih]
    · by_cases h2 : c = dollarChar
      · subst h2
        simp +decide [replaceChar, replaceChar_append, noEarlyTermAux, ih]
      · simp [replaceChar, replaceChar_append, noEarlyTermAux, h1, h2, ih, dangerChar]

/-- Positional reading of `noEarlyTermAux`: a danger character at position
`i` forces a backslash at position `i - 1` (or, at position 0, forces the
preceding character `p` to be a backslash). -/
theorem noEarlyTermAux_getD (l : List Char) :
    ∀ (p : Char) (i : Nat), noEarlyTermAux p l = true →
      dangerChar (l.getD i 'a') = true →
      (if i = 0 then p else l.getD (i - 1) 'a') = bsChar := by
  induction l with
  | nil =>
    intro p i _ hbad
    simp [List.getD] at hbad
    exact absurd hbad (by decide)
  | cons c rest ih =>
    intro p i hne hbad
    simp [noEarlyTermAux] at hne
    cases i with
    | zero =>
      simp at hbad ⊢
      rcases hne.1 with h | h
      · rw [hbad] at h; exact absurd h (by simp)
      · exact h
    | succ j =>
      have hj := ih c j hne.2 (by simpa using hbad)
      cases j with
      | zero => simpa using hj
      | succ k => simpa using hj

/-- C10: for every input string, every double-quote character and every
dollar character in the output of `_prepare_cmd_for_gcloud_ssh` sits at a
position `i > 0` and is immediately preceded by a backslash, so
interpolating the result inside the double-quoted `--command="..."`
argument cannot terminate that argument's quoting early. -/
theorem prepare_cmd_escapes_quotes_and_dollars (s : String) (i : Nat)
    (hbad : dangerChar ((prepare_cmd_for_gcloud_ssh s).data.getD i 'a') = true) :
    0 < i ∧ (prepare_cmd_for_gcloud_ssh s).data.getD (i - 1) 'a' = bsChar := by
  have h2 : (prepare_cmd_for_gcloud_ssh s).data =
      replaceChar dollarChar [bsChar, dollarChar]
        (replaceChar dqChar [bsChar, dqChar] (shlexQuote s).data) := rfl
  have hne : noEarlyTermAux 'a' (prepare_cmd_for_gcloud_ssh s).data = true := by
    rw [h2]; exact escaped_noEarlyTermAux (shlexQuote s).data 'a'
  have hkey := noEarlyTermAux_getD (prepare_cmd_for_gcloud_ssh s).data 'a' i hne hbad
  by_cases hi : i = 0
  · rw [hi] at hkey
    simp at hkey
    exact absurd hkey (by decide)
  · refine ⟨Nat.pos_of_ne_zero hi, ?_⟩
    simpa [hi] using hkey

/-- C10 witness: escaping the one-character dollar string places a dollar at
position 2 of the output, preceded by a backslash at position 1. -/
theorem prepare_cmd_escapes_quotes_and_dollars_witness :
    dangerChar ((prepare_cmd_for_gcloud_ssh (String.mk [dollarChar])).data.getD 2 'a') = true ∧
    (0 < 2 ∧
     (prepare_cmd_for_gcloud_ssh (String.mk [dollarChar])).data.getD (2 - 1) 'a' = bsChar) :=
  ⟨by decide, prepare_cmd_escapes_quotes_and_dollars (String.mk [dollarChar]) 2 (by decide)⟩
